import Mathlib

/-
  Verification of the weather fetcher script (src/weather_fetcher.py).

  The script is embedded shallowly:
  - Python/JSON values are modelled by `PyVal`.  The program performs no
    arithmetic on numbers; JSON floats are therefore carried by their
    Python `str()` representation (e.g. `PyVal.float "18.5"`).
  - The exception classes the script distinguishes are modelled by `PyExn`;
    fallible Python code becomes `Except PyExn`.
  - The HTTP transport and the JSON parser are external library calls
    (spec, section 1: out-of-scope collaborators with documented
    contracts); their combined outcome for one request is `HttpOutcome`.
  - The `tabulate` library call is modelled from its documented pipe-format
    behaviour (`tabulate`).
  - `main`'s side effects (console prints, file writes) are collected in
    `RunEffects`.
-/

namespace WeatherFetcher

/-- Python values, as produced by `json.loads` and manipulated by the
script.  `float` carries the Python `str()` rendering of the number: the
script never computes with numbers, it only prints them. -/
inductive PyVal where
  | none
  | bool (b : Bool)
  | int (n : Int)
  | float (val : String)
  | str (s : String)
  | list (elems : List PyVal)
  | dict (entries : List (String × PyVal))

/-- The Python exception classes relevant to the script.
`requestException` covers `requests.exceptions.RequestException` and all
its subclasses (`Timeout`, `ConnectionError`, `HTTPError`); the other
three are not subclasses of `RequestException`. -/
inductive PyExn where
  | requestException (msg : String)
  | jsonDecodeError (msg : String)
  | attributeError (msg : String)
  | typeError (msg : String)
deriving Repr, DecidableEq

/-- The Python type name of a value, as it appears in error messages. -/
def pyTypeName : PyVal → String
  | .none => "NoneType"
  | .bool _ => "bool"
  | .int _ => "int"
  | .float _ => "float"
  | .str _ => "str"
  | .list _ => "list"
  | .dict _ => "dict"

/-- Whether a Python value is hashable (usable as a `dict` key). Lists and
dicts are unhashable; using one as a lookup key raises `TypeError`. -/
def pyHashable : PyVal → Bool
  | .list _ => false
  | .dict _ => false
  | _ => true

mutual

/-- Python `repr` of a value (used for elements inside containers).
Strings are quoted with an apostrophe. -/
def pyRepr : PyVal → String
  | .none => "None"
  | .bool true => "True"
  | .bool false => "False"
  | .int n => toString n
  | .float v => v
  | .str s => "\x27" ++ s ++ "\x27"
  | .list elems => "[" ++ pyReprSeq elems ++ "]"
  | .dict entries => "\x7b" ++ pyReprEntries entries ++ "\x7d"

/-- Comma-separated `repr`s of the elements of a Python list. -/
def pyReprSeq : List PyVal → String
  | [] => ""
  | [x] => pyRepr x
  | x :: xs => pyRepr x ++ ", " ++ pyReprSeq xs

/-- Comma-separated quoted-key, repr-value renderings of dict entries. -/
def pyReprEntries : List (String × PyVal) → String
  | [] => ""
  | [(k, v)] => "\x27" ++ k ++ "\x27: " ++ pyRepr v
  | (k, v) :: es => "\x27" ++ k ++ "\x27: " ++ pyRepr v ++ ", " ++ pyReprEntries es

end

/-- Python `str()` of a value.  It differs from `repr` only on strings
(no quotes); containers render their elements with `repr`. -/
def pyStr : PyVal → String
  | .str s => s
  | .list elems => "[" ++ pyReprSeq elems ++ "]"
  | .dict entries => "\x7b" ++ pyReprEntries entries ++ "\x7d"
  | v => pyRepr v

/-- The Python expression `v.get(key, default)` for an arbitrary value
`v`: on a dict it is the built-in lookup with default; on anything else
attribute access raises `AttributeError` (the script calls `.get` on
whatever `json.loads` produced and on whatever `current_weather` holds). -/
def pyGet (v : PyVal) (key : String) (default : PyVal) : Except PyExn PyVal :=
  match v with
  | .dict entries => .ok ((List.lookup key entries).getD default)
  | other =>
      .error (.attributeError
        ("\x27" ++ pyTypeName other ++ "\x27 object has no attribute \x27get\x27"))

/-- The `weather_conditions` dict literal of `get_weather_condition`
(src/weather_fetcher.py lines 81-106): integer weather code to label. -/
def weather_conditions : List (Int × String) :=
  [ (0, "Clear Sky"),
    (1, "Mainly Clear"),
    (2, "Partly Cloudy"),
    (3, "Overcast"),
    (45, "Fog"),
    (48, "Depositing Rime Fog"),
    (51, "Light Drizzle"),
    (53, "Moderate Drizzle"),
    (55, "Dense Drizzle"),
    (61, "Slight Rain"),
    (63, "Moderate Rain"),
    (65, "Heavy Rain"),
    (71, "Slight Snow"),
    (73, "Moderate Snow"),
    (75, "Heavy Snow"),
    (77, "Snow Grains"),
    (80, "Slight Rain Showers"),
    (81, "Moderate Rain Showers"),
    (82, "Violent Rain Showers"),
    (85, "Slight Snow Showers"),
    (86, "Heavy Snow Showers"),
    (95, "Thunderstorm"),
    (96, "Thunderstorm with Slight Hail"),
    (99, "Thunderstorm with Heavy Hail") ]

/-- The integer keys of `weather_conditions`. -/
def knownWeatherCodes : List Int := weather_conditions.map (fun e => e.1)

/-- Python equality of a dynamic value against an integer dict key
(`weather_code == k` during dict lookup): ints compare by value, `bool`
is a subclass of `int` (`True == 1`, `False == 0`), and a float equals an
integer it represents exactly (in our rendering-based float model, a
float whose `str()` is `"k.0"`).  All other types compare unequal. -/
def pyIntKeyMatch (v : PyVal) (k : Int) : Bool :=
  match v with
  | .int n => n == k
  | .bool b => (if b then (1 : Int) else 0) == k
  | .float s => s == toString k ++ ".0"
  | _ => false

/-- The Python expression `d.get(key, default)` for an int-keyed dict `d`
and a dynamic key: raises `TypeError` on an unhashable key (list, dict),
otherwise returns the first matching entry or the default. -/
def intKeyedDictGet (d : List (Int × String)) (key : PyVal) (default : String) :
    Except PyExn String :=
  if pyHashable key then
    .ok ((d.find? (fun e => pyIntKeyMatch key e.1)).elim default (fun e => e.2))
  else
    .error (.typeError ("unhashable type: \x27" ++ pyTypeName key ++ "\x27"))

/-- Embedding of `get_weather_condition` (src/weather_fetcher.py lines
70-108): `weather_conditions.get(weather_code, "Unknown")`.  The
parameter is annotated `int` in the source but the function is applied to
whatever `current_weather.get('weathercode', 0)` produced, so the
embedding takes a dynamic value and uses Python dict-lookup semantics. -/
def get_weather_condition (weather_code : PyVal) : Except PyExn String :=
  intKeyedDictGet weather_conditions weather_code "Unknown"

/-- The combined outcome of `requests.get(api_url, timeout=10)` and of
reading its body, as seen by `fetch_weather_data`.  The transport and the
JSON parser are external libraries (spec section 1); a `response` carries
the final HTTP status code and the result of `json.loads(response.text)`
(`Except.error` when the body is not valid JSON, with the decoder's
message). -/
inductive HttpOutcome where
  | timeout (msg : String)
  | connectionError (msg : String)
  | response (status : Nat) (body : Except String PyVal)

/-- The message of an `HTTPError` raised by `response.raise_for_status()`.
Requests formats it as code plus "Client Error"/"Server Error" (the
reason phrase and URL that follow are abstracted; no claim inspects
them). -/
def http_error_message (status : Nat) : String :=
  if status < 500 then toString status ++ " Client Error"
  else toString status ++ " Server Error"

/-- The documented contract of `response.raise_for_status()`: raises an
`HTTPError` exactly for 4xx and 5xx status codes. -/
def raise_for_status (status : Nat) : Except String Unit :=
  if 400 ≤ status && status < 600 then .error (http_error_message status)
  else .ok ()

/-- Embedding of `fetch_weather_data` (src/weather_fetcher.py lines
14-33).  Inside the `try`: `requests.get` (timeout or connection failure
raise subclasses of `RequestException`), `response.raise_for_status()`
(`HTTPError`, also a `RequestException`), then
`json.loads(response.text)`.  The `except` clause catches only
`RequestException` and re-raises it with the "Failed to fetch weather
data: " message; a `json.JSONDecodeError` is not a `RequestException`
and propagates unchanged. -/
def fetch_weather_data (outcome : HttpOutcome) : Except PyExn PyVal :=
  match outcome with
  | .timeout msg =>
      .error (.requestException ("Failed to fetch weather data: " ++ msg))
  | .connectionError msg =>
      .error (.requestException ("Failed to fetch weather data: " ++ msg))
  | .response status body =>
      match raise_for_status status with
      | .error msg =>
          .error (.requestException ("Failed to fetch weather data: " ++ msg))
      | .ok _ =>
          match body with
          | .error msg => .error (.jsonDecodeError msg)
          | .ok v => .ok v

/-- A run of `n` space characters. -/
def spacesOf (n : Nat) : String := String.mk (List.replicate n ' ')

/-- A run of `n` dash characters. -/
def dashesOf (n : Nat) : String := String.mk (List.replicate n '-')

/-- How `tabulate` renders one cell of a string-typed column: Python
`str()` except that `None` becomes the default `missingval`, the empty
string. -/
def tabulateCellStr : PyVal → String
  | .none => ""
  | v => pyStr v

/-- Left-justify `s` in a field of `w` characters. -/
def ljustTo (s : String) (w : Nat) : String := s ++ spacesOf (w - s.length)

/-- Right-justify `s` in a field of `w` characters. -/
def rjustTo (s : String) (w : Nat) : String := spacesOf (w - s.length) ++ s

/-- Whether `tabulate` treats a cell as a number for column alignment. -/
def cellIsNumber : PyVal → Bool
  | .int _ => true
  | .float _ => true
  | _ => false

/-- Column `i` of a row-major table (missing entries read as `None`). -/
def tableColumn (rows : List (List PyVal)) (i : Nat) : List PyVal :=
  rows.map (fun r => r.getD i .none)

/-- Model of `tabulate(table_data, headers=..., tablefmt="pipe")` from the
tabulate library's documented behaviour (the table renderer is an
external library, spec section 1): each column is as wide as its widest
cell but at least two characters wider than its header (tabulate's
`MIN_PADDING`); columns whose every cell is a number are right-aligned
and get a `---:` separator segment, all others are left-aligned with a
`:---` segment; each cell is padded to the column width and wrapped in
`| ... |`.  Number reformatting (`floatfmt`) in all-numeric columns is
abstracted as the identity; in this program the value column always
contains the condition label, a non-numeric string, so no all-numeric
column ever occurs. -/
def tabulate (table_data : List (List PyVal)) (headers : List String) : String :=
  let cols := List.range headers.length
  let width := fun i =>
    max ((headers.getD i "").length + 2)
      (((tableColumn table_data i).map (fun c => (tabulateCellStr c).length)).foldl max 0)
  let numeric := fun i => (tableColumn table_data i).all cellIsNumber
  let pad := fun i (s : String) =>
    if numeric i then rjustTo s (width i) else ljustTo s (width i)
  let headerRow :=
    "| " ++ String.intercalate " | " (cols.map (fun i => pad i (headers.getD i ""))) ++ " |"
  let sepRow :=
    "|" ++ String.intercalate "|" (cols.map (fun i =>
      if numeric i then dashesOf (width i + 1) ++ ":" else ":" ++ dashesOf (width i + 1))) ++ "|"
  let dataRow := fun (r : List PyVal) =>
    "| " ++ String.intercalate " | " (cols.map (fun i => pad i (tabulateCellStr (r.getD i .none)))) ++ " |"
  String.intercalate "\n" (headerRow :: sepRow :: table_data.map dataRow)

/-- The field extraction of `format_weather_as_markdown`
(src/weather_fetcher.py lines 47-54): `weather_data.get('current_weather',
\x7b\x7d)` then the three `.get`s with defaults `'N/A'`, `'N/A'`, `0`. -/
def format_extracted_fields (weather_data : PyVal) :
    Except PyExn (PyVal × PyVal × PyVal) := do
  let current_weather ← pyGet weather_data "current_weather" (.dict [])
  let temperature ← pyGet current_weather "temperature" (.str "N/A")
  let wind_speed ← pyGet current_weather "windspeed" (.str "N/A")
  let weather_code ← pyGet current_weather "weathercode" (.int 0)
  pure (temperature, wind_speed, weather_code)

/-- The `table_data` list of `format_weather_as_markdown`
(src/weather_fetcher.py lines 55-62).  The first row label is written
exactly as the source file's bytes decode: line 59 contains the bytes
C3 82 C2 B0, i.e. the two characters U+00C2, U+00B0 ("Â°"), a mojibake
of the intended degree sign. -/
def format_table_data (weather_data : PyVal) : Except PyExn (List (List PyVal)) := do
  let (temperature, wind_speed, weather_code) ← format_extracted_fields weather_data
  let condition ← get_weather_condition weather_code
  pure [ [.str "Temperature (Â°C)", temperature],
         [.str "Wind Speed (km/h)", wind_speed],
         [.str "Condition", .str condition] ]

/-- Embedding of `format_weather_as_markdown` (src/weather_fetcher.py
lines 36-67): build `table_data` and render it with
`tabulate(..., headers=["Metric", "Value"], tablefmt="pipe")`. -/
def format_weather_as_markdown (weather_data : PyVal) : Except PyExn String := do
  let table_data ← format_table_data weather_data
  pure (tabulate table_data ["Metric", "Value"])

mutual

/-- JSON rendering of a value, modelling `json.dumps` up to insignificant
whitespace (the `indent=2` pretty-printing) and string escaping.  It is
used only for the raw-response console line, which no claim inspects. -/
def pyJson : PyVal → String
  | .none => "null"
  | .bool true => "true"
  | .bool false => "false"
  | .int n => toString n
  | .float v => v
  | .str s => "\x22" ++ s ++ "\x22"
  | .list elems => "[" ++ pyJsonSeq elems ++ "]"
  | .dict entries => "\x7b" ++ pyJsonEntries entries ++ "\x7d"

/-- Comma-separated JSON renderings of list elements. -/
def pyJsonSeq : List PyVal → String
  | [] => ""
  | [x] => pyJson x
  | x :: xs => pyJson x ++ ", " ++ pyJsonSeq xs

/-- Comma-separated JSON renderings of object entries. -/
def pyJsonEntries : List (String × PyVal) → String
  | [] => ""
  | [(k, v)] => "\x22" ++ k ++ "\x22: " ++ pyJson v
  | (k, v) :: es => "\x22" ++ k ++ "\x22: " ++ pyJson v ++ ", " ++ pyJsonEntries es

end

/-- The observable side effects of one run of `main`: the console lines
printed (one entry per `print` call, embedded newlines kept) and the file
writes performed.  Each element of `fileWrites` is one `open(..., "w")`
block, recorded as the file name and the concatenation of the texts
written to it (mode "w" truncates, so the block replaces any previous
content). -/
structure RunEffects where
  console : List String
  fileWrites : List (String × String)
deriving Repr, DecidableEq

/-- The banner line `"=" * 50`. -/
def equalsBanner : String := String.mk (List.replicate 50 '=')

/-- The console line printed by `main`'s `except` clauses: the first
clause catches `requests.exceptions.RequestException` and prints with
the "Error: " marker; the second catches every other `Exception` and
prints with "Unexpected error: ". -/
def errorConsoleLine (e : PyExn) : String :=
  match e with
  | .requestException msg => "Error: " ++ msg
  | .jsonDecodeError msg => "Unexpected error: " ++ msg
  | .attributeError msg => "Unexpected error: " ++ msg
  | .typeError msg => "Unexpected error: " ++ msg

/-- Embedding of `main` (src/weather_fetcher.py lines 111-140), as a
function of the external request outcome.  The `try` body runs the
pipeline in order; the first raised exception aborts the remaining
statements and is printed by the matching `except` clause, so a failure
in `fetch_weather_data` or in `format_weather_as_markdown` leaves
`fileWrites` empty. -/
def main (outcome : HttpOutcome) : RunEffects :=
  match fetch_weather_data outcome with
  | .error e => ⟨["Fetching weather data...", errorConsoleLine e], []⟩
  | .ok weather_data =>
      let headLines :=
        ["Fetching weather data...",
         "\nWeather Data (Raw JSON):",
         pyJson weather_data,
         "\n" ++ equalsBanner,
         "FORMATTED WEATHER DATA (Markdown Table):",
         equalsBanner]
      match format_weather_as_markdown weather_data with
      | .error e => ⟨headLines ++ [errorConsoleLine e], []⟩
      | .ok markdown_table =>
          ⟨headLines ++
             [markdown_table,
              "\nWeather report saved to \x27weather_report.md\x27"],
           [("weather_report.md", "# Weather Report\n\n" ++ markdown_table)]⟩

/-- The content of the file named `path` after replaying a run's writes
over an initial filesystem state (`Option.none` = file absent).  Mode
"w" semantics: a write replaces whatever was there. -/
def applyWrites (writes : List (String × String)) (path : String)
    (fs : Option String) : Option String :=
  writes.foldl (fun acc w => if w.1 == path then some w.2 else acc) fs

/-- Whether a fetch result is a `FetchError` in the spec's sense, i.e. a
raised `requests.exceptions.RequestException`. -/
def isFetchError : Except PyExn PyVal → Bool
  | .error (.requestException _) => true
  | _ => false

/-- The request outcomes on which the fetch stage raises a
`RequestException`: a timeout, a connection failure, or a final status in
the 4xx/5xx range (the range `raise_for_status` reports). -/
def fetchErrorCondition : HttpOutcome → Bool
  | .timeout _ => true
  | .connectionError _ => true
  | .response status _ => 400 ≤ status && status < 600

/-- Whether the fetch stage or the format stage of the pipeline fails for
a given request outcome. -/
def pipeline_fails (outcome : HttpOutcome) : Bool :=
  match fetch_weather_data outcome with
  | .error _ => true
  | .ok weather_data =>
      match format_weather_as_markdown weather_data with
      | .error _ => true
      | .ok _ => false

/-- The exception that aborts the pipeline for a given request outcome,
if any: the fetch stage's exception, else the format stage's exception,
else `Option.none` when both stages succeed. -/
def pipeline_error (outcome : HttpOutcome) : Option PyExn :=
  match fetch_weather_data outcome with
  | .error e => some e
  | .ok weather_data =>
      match format_weather_as_markdown weather_data with
      | .error e => some e
      | .ok _ => Option.none

/-- Whether `format_weather_as_markdown` completes without raising. -/
def formatSucceeds (weather_data : PyVal) : Bool :=
  match format_weather_as_markdown weather_data with
  | .ok _ => true
  | .error _ => false

/-- The inputs on which `format_weather_as_markdown` completes without
raising: the response is a dict, its `current_weather` value (if any) is
itself a dict, and that dict's `weathercode` value (if any) is hashable.
Outside this set one of the dynamic `.get` calls raises. -/
def format_input_ok : PyVal → Bool
  | .dict entries =>
      match List.lookup "current_weather" entries with
      | Option.none => true
      | Option.some (.dict cw) =>
          match List.lookup "weathercode" cw with
          | Option.none => true
          | Option.some v => pyHashable v
      | Option.some _ => false
  | _ => false

/-- C1: for every integer weather code, `get_weather_condition` returns
exactly the documented label on each of the 24 codes of the table, and
"Unknown" on every other integer, negative or above 99 included. -/
theorem get_weather_condition_documented_labels :
    (get_weather_condition (.int 0) = .ok "Clear Sky" ∧
     get_weather_condition (.int 1) = .ok "Mainly Clear" ∧
     get_weather_condition (.int 2) = .ok "Partly Cloudy" ∧
     get_weather_condition (.int 3) = .ok "Overcast" ∧
     get_weather_condition (.int 45) = .ok "Fog" ∧
     get_weather_condition (.int 48) = .ok "Depositing Rime Fog" ∧
     get_weather_condition (.int 51) = .ok "Light Drizzle" ∧
     get_weather_condition (.int 53) = .ok "Moderate Drizzle" ∧
     get_weather_condition (.int 55) = .ok "Dense Drizzle" ∧
     get_weather_condition (.int 61) = .ok "Slight Rain" ∧
     get_weather_condition (.int 63) = .ok "Moderate Rain" ∧
     get_weather_condition (.int 65) = .ok "Heavy Rain" ∧
     get_weather_condition (.int 71) = .ok "Slight Snow" ∧
     get_weather_condition (.int 73) = .ok "Moderate Snow" ∧
     get_weather_condition (.int 75) = .ok "Heavy Snow" ∧
     get_weather_condition (.int 77) = .ok "Snow Grains" ∧
     get_weather_condition (.int 80) = .ok "Slight Rain Showers" ∧
     get_weather_condition (.int 81) = .ok "Moderate Rain Showers" ∧
     get_weather_condition (.int 82) = .ok "Violent Rain Showers" ∧
     get_weather_condition (.int 85) = .ok "Slight Snow Showers" ∧
     get_weather_condition (.int 86) = .ok "Heavy Snow Showers" ∧
     get_weather_condition (.int 95) = .ok "Thunderstorm" ∧
     get_weather_condition (.int 96) = .ok "Thunderstorm with Slight Hail" ∧
     get_weather_condition (.int 99) = .ok "Thunderstorm with Heavy Hail") ∧
    ∀ n : Int, n ∉ knownWeatherCodes →
      get_weather_condition (.int n) = .ok "Unknown" := by
  constructor
  · exact ⟨rfl, rfl, rfl, rfl, rfl, rfl, rfl, rfl, rfl, rfl, rfl, rfl,
           rfl, rfl, rfl, rfl, rfl, rfl, rfl, rfl, rfl, rfl, rfl, rfl⟩
  · intro n hn
    have hfind :
        weather_conditions.find? (fun e => pyIntKeyMatch (.int n) e.1) = Option.none := by
      rw [List.find?_eq_none]
      intro x hx
      have hx1 : x.1 ∈ knownWeatherCodes := List.mem_map_of_mem (fun e => e.1) hx
      simp only [pyIntKeyMatch, beq_iff_eq, Bool.not_eq_true]
      intro hEq
      exact hn (hEq ▸ hx1)
    simp [get_weather_condition, intKeyedDictGet, pyHashable, hfind]

/-- Witness for C1 at the out-of-table code 100. -/
theorem get_weather_condition_documented_labels_witness :
    (100 : Int) ∉ knownWeatherCodes ∧
    get_weather_condition (.int 100) = .ok "Unknown" :=
  ⟨by decide, get_weather_condition_documented_labels.2 100 (by decide)⟩

/-- C8: `get_weather_condition` is total over all integers: on every
integer code it completes with a string instead of raising, and, the
embedding being a pure function, two calls with the same code are the
same term, hence yield identical output (second conjunct). -/
theorem get_weather_condition_total_pure :
    ∀ n : Int,
      (∃ s : String, get_weather_condition (.int n) = Except.ok s) ∧
      get_weather_condition (.int n) = get_weather_condition (.int n) :=
  fun _ => ⟨⟨_, rfl⟩, rfl⟩

/-- C2 counterexample: a 200 response whose body is not valid JSON makes
`fetch_weather_data` raise the decoder's `JSONDecodeError`, which is not
a `RequestException`, so the claim that every unparseable body yields a
`FetchError` is false on this input. -/
theorem fetch_weather_data_parse_failure_counterexample :
    fetch_weather_data
        (.response 200 (.error "Expecting value: line 1 column 1 (char 0)")) =
      .error (.jsonDecodeError "Expecting value: line 1 column 1 (char 0)") ∧
    isFetchError
        (fetch_weather_data
          (.response 200 (.error "Expecting value: line 1 column 1 (char 0)"))) =
      false :=
  ⟨rfl, rfl⟩

/-- C2 amended: `fetch_weather_data` raises a `RequestException` carrying
the "Failed to fetch weather data: " description exactly when the request
times out, the connection fails, or the final status is in the 4xx/5xx
range reported by `raise_for_status`; on any other status a parseable
body is returned decoded, and an unparseable body raises the decoder's
`JSONDecodeError` instead of a `FetchError`. -/
theorem fetch_weather_data_error_characterization :
    (∀ m, fetch_weather_data (.timeout m) =
        .error (.requestException ("Failed to fetch weather data: " ++ m))) ∧
    (∀ m, fetch_weather_data (.connectionError m) =
        .error (.requestException ("Failed to fetch weather data: " ++ m))) ∧
    (∀ o : HttpOutcome, isFetchError (fetch_weather_data o) = fetchErrorCondition o) ∧
    (∀ (s : Nat) (v : PyVal), fetchErrorCondition (.response s (.ok v)) = false →
        fetch_weather_data (.response s (.ok v)) = .ok v) ∧
    (∀ (s : Nat) (m : String), fetchErrorCondition (.response s (.error m)) = false →
        fetch_weather_data (.response s (.error m)) = .error (.jsonDecodeError m)) := by
  refine ⟨fun m => rfl, fun m => rfl, ?_, ?_, ?_⟩
  · intro o
    rcases o with m | m | ⟨s, b⟩
    · rfl
    · rfl
    · rcases b with m | v <;>
        rcases hc : (400 ≤ s && s < 600 : Bool) <;>
          simp [fetch_weather_data, raise_for_status, isFetchError,
                fetchErrorCondition, hc]
  · intro s v h
    simp only [fetchErrorCondition] at h
    simp [fetch_weather_data, raise_for_status, h]
  · intro s m h
    simp only [fetchErrorCondition] at h
    simp [fetch_weather_data, raise_for_status, h]

/-- Witness for C2 at a 200 status: no fetch error, body returned decoded. -/
theorem fetch_weather_data_error_characterization_witness :
    fetchErrorCondition (.response 200 (.ok (.dict []))) = false ∧
    fetch_weather_data (.response 200 (.ok (.dict []))) = .ok (.dict []) :=
  ⟨rfl, fetch_weather_data_error_characterization.2.2.2.1 200 (.dict []) rfl⟩

/-- C3: whenever the fetch stage or the format stage fails, `main`
performs no file write, `weather_report.md` keeps its previous state,
and the last console line is the failed stage's exception rendered by
the matching `except` clause with its distinguishing marker ("Error: "
for a `RequestException`, "Unexpected error: " otherwise); the
exception is consumed there, not propagated. -/
theorem main_no_file_write_on_failure :
    ∀ (outcome : HttpOutcome) (fs : Option String),
      pipeline_fails outcome = true →
      (main outcome).fileWrites = [] ∧
      applyWrites (main outcome).fileWrites "weather_report.md" fs = fs ∧
      (main outcome).console.getLast? = (pipeline_error outcome).map errorConsoleLine := by
  intro outcome fs h
  cases hf : fetch_weather_data outcome with
  | error e =>
      simp [main, hf, applyWrites, pipeline_error]
  | ok weather_data =>
      cases hm : format_weather_as_markdown weather_data with
      | error e =>
          simp [main, hf, hm, applyWrites, pipeline_error]
      | ok markdown_table =>
          exfalso
          simp [pipeline_fails, hf, hm] at h

/-- Witness for C3 on a timed-out request over a pre-existing file. -/
theorem main_no_file_write_on_failure_witness :
    pipeline_fails (.timeout "Read timed out.") = true ∧
    ((main (.timeout "Read timed out.")).fileWrites = [] ∧
     applyWrites (main (.timeout "Read timed out.")).fileWrites "weather_report.md"
         (some "stale report") = some "stale report" ∧
     (main (.timeout "Read timed out.")).console.getLast? =
       (pipeline_error (.timeout "Read timed out.")).map errorConsoleLine) :=
  ⟨rfl, main_no_file_write_on_failure (.timeout "Read timed out.") (some "stale report") rfl⟩

/-- C6: on every successful run, `main` performs exactly one write, to
the fixed name `weather_report.md`, whose content is the level-1 heading
"# Weather Report", a blank line, and the formatted table; replaying the
write over any previous filesystem state yields that same content
(truncating create-or-overwrite, never append). -/
theorem main_writes_report_file_on_success :
    ∀ (outcome : HttpOutcome) (weather_data : PyVal) (markdown_table : String)
      (fs : Option String),
      fetch_weather_data outcome = .ok weather_data →
      format_weather_as_markdown weather_data = .ok markdown_table →
      (main outcome).fileWrites =
        [("weather_report.md", "# Weather Report\n\n" ++ markdown_table)] ∧
      applyWrites (main outcome).fileWrites "weather_report.md" fs =
        some ("# Weather Report\n\n" ++ markdown_table) := by
  intro outcome weather_data markdown_table fs h1 h2
  simp [main, h1, h2, applyWrites]

/-- Witness for C6 on a 200 response with an empty JSON object body,
replayed over a filesystem that already holds an old report. -/
theorem main_writes_report_file_on_success_witness :
    fetch_weather_data (.response 200 (.ok (.dict []))) = .ok (.dict []) ∧
    format_weather_as_markdown (.dict []) =
      .ok ("| Metric            | Value     |\n|:------------------|:----------|\n| Temperature (Â°C) | N/A       |\n| Wind Speed (km/h) | N/A       |\n| Condition         | Clear Sky |") ∧
    ((main (.response 200 (.ok (.dict [])))).fileWrites =
      [("weather_report.md",
        "# Weather Report\n\n" ++
          "| Metric            | Value     |\n|:------------------|:----------|\n| Temperature (Â°C) | N/A       |\n| Wind Speed (km/h) | N/A       |\n| Condition         | Clear Sky |")] ∧
     applyWrites (main (.response 200 (.ok (.dict [])))).fileWrites
         "weather_report.md" (some "old report") =
       some ("# Weather Report\n\n" ++
          "| Metric            | Value     |\n|:------------------|:----------|\n| Temperature (Â°C) | N/A       |\n| Wind Speed (km/h) | N/A       |\n| Condition         | Clear Sky |")) :=
  ⟨rfl, rfl,
   main_writes_report_file_on_success (.response 200 (.ok (.dict []))) (.dict [])
     ("| Metric            | Value     |\n|:------------------|:----------|\n| Temperature (Â°C) | N/A       |\n| Wind Speed (km/h) | N/A       |\n| Condition         | Clear Sky |")
     (some "old report") rfl rfl⟩

/-- Helper: `format_table_data` factors through the three extracted
fields. -/
theorem format_table_data_congr {a b : PyVal}
    (h : format_extracted_fields a = format_extracted_fields b) :
    format_table_data a = format_table_data b := by
  unfold format_table_data
  rw [h]

/-- Helper: `format_weather_as_markdown` factors through the three
extracted fields. -/
theorem format_weather_congr {a b : PyVal}
    (h : format_extracted_fields a = format_extracted_fields b) :
    format_weather_as_markdown a = format_weather_as_markdown b := by
  unfold format_weather_as_markdown
  rw [format_table_data_congr h]

/-- C9: the output of `format_weather_as_markdown` depends only on the
temperature, windspeed and weathercode entries extracted from the
`current_weather` sub-mapping (defaults applied for absent entries): two
responses whose extractions agree format identically, whatever other
keys either response carries. -/
theorem format_depends_only_on_extracted_fields :
    ∀ a b : PyVal,
      format_extracted_fields a = format_extracted_fields b →
      format_weather_as_markdown a = format_weather_as_markdown b :=
  fun _ _ h => format_weather_congr h

/-- Witness for C9: an extra top-level key does not change the output. -/
theorem format_depends_only_on_extracted_fields_witness :
    format_extracted_fields
        (.dict [("current_weather", .dict [("temperature", .float "7.0")]),
                ("elevation", .float "38.0")]) =
      format_extracted_fields
        (.dict [("current_weather", .dict [("temperature", .float "7.0")])]) ∧
    format_weather_as_markdown
        (.dict [("current_weather", .dict [("temperature", .float "7.0")]),
                ("elevation", .float "38.0")]) =
      format_weather_as_markdown
        (.dict [("current_weather", .dict [("temperature", .float "7.0")])]) :=
  ⟨rfl,
   format_depends_only_on_extracted_fields
     (.dict [("current_weather", .dict [("temperature", .float "7.0")]),
             ("elevation", .float "38.0")])
     (.dict [("current_weather", .dict [("temperature", .float "7.0")])]) rfl⟩

/-- C4: when the response has no `current_weather` key at all, the
formatted table carries "N/A" as the Temperature value and as the Wind
Speed value, the weather code defaults to 0, and the Condition row
therefore reads "Clear Sky". -/
theorem format_defaults_when_current_weather_missing :
    ∀ entries : List (String × PyVal),
      List.lookup "current_weather" entries = Option.none →
      format_table_data (.dict entries) =
        .ok [ [.str "Temperature (Â°C)", .str "N/A"],
              [.str "Wind Speed (km/h)", .str "N/A"],
              [.str "Condition", .str "Clear Sky"] ] ∧
      format_weather_as_markdown (.dict entries) =
        .ok ("| Metric            | Value     |\n|:------------------|:----------|\n| Temperature (Â°C) | N/A       |\n| Wind Speed (km/h) | N/A       |\n| Condition         | Clear Sky |") := by
  intro entries h
  have he : format_extracted_fields (.dict entries) =
      format_extracted_fields (.dict []) := by
    simp [format_extracted_fields, pyGet, h]
  exact ⟨(format_table_data_congr he).trans rfl,
         (format_weather_congr he).trans rfl⟩

/-- Witness for C4 on a response holding only an unrelated key. -/
theorem format_defaults_when_current_weather_missing_witness :
    List.lookup "current_weather" [("latitude", PyVal.float "51.5")] = Option.none ∧
    (format_table_data (.dict [("latitude", PyVal.float "51.5")]) =
        .ok [ [.str "Temperature (Â°C)", .str "N/A"],
              [.str "Wind Speed (km/h)", .str "N/A"],
              [.str "Condition", .str "Clear Sky"] ] ∧
     format_weather_as_markdown (.dict [("latitude", PyVal.float "51.5")]) =
        .ok ("| Metric            | Value     |\n|:------------------|:----------|\n| Temperature (Â°C) | N/A       |\n| Wind Speed (km/h) | N/A       |\n| Condition         | Clear Sky |")) :=
  ⟨rfl,
   format_defaults_when_current_weather_missing [("latitude", PyVal.float "51.5")] rfl⟩

/-- C7: on the response whose `current_weather` is temperature 18.5,
windspeed 12.3, weathercode 3, the table rows are Temperature 18.5, Wind
Speed 12.3, Condition "Overcast", in that order, and the rendered table
prints those values. -/
theorem format_sample_response_rows :
    format_table_data
        (.dict [("current_weather", .dict
          [("temperature", .float "18.5"), ("windspeed", .float "12.3"),
           ("weathercode", .int 3)])]) =
      .ok [ [.str "Temperature (Â°C)", .float "18.5"],
            [.str "Wind Speed (km/h)", .float "12.3"],
            [.str "Condition", .str "Overcast"] ] ∧
    format_weather_as_markdown
        (.dict [("current_weather", .dict
          [("temperature", .float "18.5"), ("windspeed", .float "12.3"),
           ("weathercode", .int 3)])]) =
      .ok ("| Metric            | Value    |\n|:------------------|:---------|\n| Temperature (Â°C) | 18.5     |\n| Wind Speed (km/h) | 12.3     |\n| Condition         | Overcast |") :=
  ⟨rfl, rfl⟩

/-- C5: the rendered table has exactly the fixed five pipe-format lines
(header `Metric | Value`, separator, then the three rows Temperature,
Wind Speed, Condition in that order), but the first row label the code
produces is the mojibake "Temperature (Â°C)" (source line 59 holds the
bytes C3 82 C2 B0), not the "Temperature (°C)" of the specification:
the two labels differ. -/
theorem format_table_shape_and_mojibake_label :
    format_weather_as_markdown
        (.dict [("current_weather", .dict
          [("temperature", .float "18.5"), ("windspeed", .float "12.3"),
           ("weathercode", .int 3)])]) =
      .ok ("| Metric            | Value    |\n|:------------------|:---------|\n| Temperature (Â°C) | 18.5     |\n| Wind Speed (km/h) | 12.3     |\n| Condition         | Overcast |") ∧
    (("Temperature (Â°C)" : String) == "Temperature (°C)") = false :=
  ⟨rfl, rfl⟩

/-- C10 counterexample: a parsed response whose `current_weather` value
is not a mapping makes `format_weather_as_markdown` raise an
`AttributeError` instead of returning a string, so the claim that the
formatter is total on every string-keyed mapping is false on this
input. -/
theorem format_raises_on_non_dict_current_weather :
    format_weather_as_markdown (.dict [("current_weather", .int 5)]) =
      .error (.attributeError "\x27int\x27 object has no attribute \x27get\x27") ∧
    formatSucceeds (.dict [("current_weather", .int 5)]) = false :=
  ⟨rfl, rfl⟩

/-- C10 amended: `format_weather_as_markdown` returns a string without
raising on every response that is a mapping whose `current_weather`
value, when present, is itself a mapping whose `weathercode` entry, when
present, is hashable; on such inputs any non-numeric temperature or
windspeed value is put into the table verbatim and the top-level
UnexpectedError branch is not reached from the formatting step. -/
theorem format_total_on_wellshaped_responses :
    ∀ weather_data : PyVal,
      format_input_ok weather_data = true →
      formatSucceeds weather_data = true := by
  intro wd h
  cases wd with
  | none => simp [format_input_ok] at h
  | bool b => simp [format_input_ok] at h
  | int n => simp [format_input_ok] at h
  | float v => simp [format_input_ok] at h
  | str s => simp [format_input_ok] at h
  | list l => simp [format_input_ok] at h
  | dict entries =>
    cases hcw : List.lookup "current_weather" entries with
    | none =>
        simp [formatSucceeds, format_weather_as_markdown, format_table_data,
              format_extracted_fields, pyGet, hcw, get_weather_condition,
              intKeyedDictGet, pyHashable, Bind.bind, Except.bind,
              Functor.map, Except.map, pure, Except.pure]
    | some v =>
        cases v with
        | none => simp [format_input_ok, hcw] at h
        | bool b => simp [format_input_ok, hcw] at h
        | int n => simp [format_input_ok, hcw] at h
        | float f => simp [format_input_ok, hcw] at h
        | str s => simp [format_input_ok, hcw] at h
        | list l => simp [format_input_ok, hcw] at h
        | dict cw =>
            cases hwc : List.lookup "weathercode" cw with
            | none =>
                simp [formatSucceeds, format_weather_as_markdown, format_table_data,
                      format_extracted_fields, pyGet, hcw, hwc,
                      get_weather_condition, intKeyedDictGet, pyHashable,
                      Bind.bind, Except.bind, Functor.map, Except.map, pure, Except.pure]
            | some u =>
                have hu : pyHashable u = true := by
                  simpa [format_input_ok, hcw, hwc] using h
                simp [formatSucceeds, format_weather_as_markdown, format_table_data,
                      format_extracted_fields, pyGet, hcw, hwc,
                      get_weather_condition, intKeyedDictGet, hu,
                      Bind.bind, Except.bind, Functor.map, Except.map, pure, Except.pure]

/-- Witness for C10 on a well-shaped response with non-numeric field
values. -/
theorem format_total_on_wellshaped_responses_witness :
    format_input_ok
        (.dict [("current_weather", .dict
          [("temperature", .str "warm"), ("weathercode", .str "NA")])]) = true ∧
    formatSucceeds
        (.dict [("current_weather", .dict
          [("temperature", .str "warm"), ("weathercode", .str "NA")])]) = true :=
  ⟨rfl,
   format_total_on_wellshaped_responses
     (.dict [("current_weather", .dict
       [("temperature", .str "warm"), ("weathercode", .str "NA")])]) rfl⟩

end WeatherFetcher
